import Mathlib

/-!
Verification of the discovery-engine-2cat specification against its code.

The repository ships the scripts `scripts/setup_discovery_engine.py`,
`scripts/validate_migration.py`, `scripts/test_discovery_engine.py` and the
re-exporting packages `methods/egraph/__init__.py`, `orchestrator/__init__.py`.
The implementation modules those packages re-export (`methods/egraph/egraph.py`,
`orchestrator/ae_loop.py`, `orchestrator/cegis_loop.py`,
`orchestrator/selection.py`, `orchestrator/unified_orchestrator.py`) are not
part of the source tree; where a claim depends on them, the corresponding
definition below is modelled from the specification text (its doc comment says
so explicitly) and the claim is settled against that model.
-/

namespace DiscoveryEngine

/-! ## Canonicalization engine (spec section 4.1)

Modelled from the spec: `methods/egraph/egraph.py` is absent from the source
tree; only `methods/egraph/__init__.py` re-exports `EGraph`,
`canonicalize_state` and `canonicalize_choreography`.  The model below follows
spec section 3 (data model) and section 4.1: a canonical identifier for a
composite input is derived by recursively canonicalizing each constituent,
sorting the constituent canonical ids of order-irrelevant facets, and hashing
the resulting normalized structure.  The hash is modelled as the identity map
on normalized structures (any injective, stable hash yields the same equalities
and inequalities of canonical ids).  The Python functions also thread an
`EGraph` accumulator; by the determinism contract of section 4.1 the returned
identifier does not depend on it, so the model is a pure function of the input.
-/

/-- Modelled from the spec: a hypothesis record has an identity, descriptive
text, and a status (spec section 3).  The identity is optional so that
malformed records, which section 4.1 calls out as an input error, are
representable. -/
structure Hypothesis where
  id : Option String
  title : String
  status : String
deriving DecidableEq, Repr

/-- Modelled from the spec: an evidence record has an identity, a kind and a
locator (spec section 3). -/
structure Evidence where
  id : Option String
  kind : String
  uri : String
deriving DecidableEq, Repr

/-- Modelled from the spec: a knowledge/constraint record has an identity, a
source and a rule body (spec section 3). -/
structure Knowledge where
  id : Option String
  srcTag : String
  rule : String
deriving DecidableEq, Repr

/-- Modelled from the spec: an exploration state has facets H (hypotheses),
E (evidence), K (knowledge/constraints), A (ordered audit trail of applied
operations) and J (ordered, append-only journal).  Member order within H, E, K
does not affect canonical identity; the order of A and J does (spec section 3
invariants). -/
structure ExplorationState where
  H : List Hypothesis
  E : List Evidence
  K : List Knowledge
  A : List String
  J : List String
deriving DecidableEq, Repr

/-- Fingerprint of a hypothesis record: the normalized sub-term inserted for it
into the congruence structure (spec section 4.1).  The leading tag keeps the
encoding injective in the presence of missing identities. -/
def hypFingerprint (h : Hypothesis) : List String :=
  match h.id with
  | some i => ["1", i, h.title, h.status]
  | none => ["0", "", h.title, h.status]

/-- Fingerprint of an evidence record (spec section 4.1). -/
def evFingerprint (e : Evidence) : List String :=
  match e.id with
  | some i => ["1", i, e.kind, e.uri]
  | none => ["0", "", e.kind, e.uri]

/-- Fingerprint of a knowledge record (spec section 4.1). -/
def knFingerprint (k : Knowledge) : List String :=
  match k.id with
  | some i => ["1", i, k.srcTag, k.rule]
  | none => ["0", "", k.srcTag, k.rule]

/-- Canonical identifier of a state: the normalized structure obtained by
sorting the member fingerprints of each order-irrelevant facet and keeping the
ordered facets as they are (spec section 4.1; the final stable hash is modelled
as the identity on normalized structures). -/
structure CanonicalId where
  hFp : List (List String)
  eFp : List (List String)
  kFp : List (List String)
  aSeq : List String
  jSeq : List String
deriving DecidableEq, Repr

/-- Facet validation, modelled from the spec (sections 4.1 and 7): a member
lacking a required identity, or duplicate identities within a facet, is a
reported input error.  Returns the error message, or none when the facet is
well-formed.  The message depends only on facet-level conditions, which are
insensitive to member order. -/
def facetError {α : Type} (getId : α → Option String) (facet : String)
    (l : List α) : Option String :=
  if !(l.all fun m => (getId m).isSome) then
    some ("member lacking required identity in facet " ++ facet)
  else if !(decide (l.map getId).Nodup) then
    some ("duplicate identities in facet " ++ facet)
  else
    none

/-- Modelled from the spec: canonicalize a state (spec section 4.1).  Malformed
input is a reported input error surfaced to the caller; otherwise the canonical
identifier sorts each unordered facet's member fingerprints and keeps the
ordered facets A and J in sequence. -/
def canonicalize_state (s : ExplorationState) : Except String CanonicalId :=
  match facetError Hypothesis.id "H" s.H with
  | some e => .error e
  | none =>
    match facetError Evidence.id "E" s.E with
    | some e => .error e
    | none =>
      match facetError Knowledge.id "K" s.K with
      | some e => .error e
      | none =>
        .ok { hFp := (s.H.map hypFingerprint).mergeSort
              eFp := (s.E.map evFingerprint).mergeSort
              kFp := (s.K.map knFingerprint).mergeSort
              aSeq := s.A
              jSeq := s.J }

/-- Modelled from the spec: canonicalize a choreography, given as its ordered
sequence of operation tokens (spec section 4.1; the operation sequence is
order-relevant, so no sorting happens).  Each operation token is inserted as a
node and the identifier is derived from the constituent canonical ids in
order. -/
def canonicalize_choreography (ops : List String) : List (List String) :=
  ops.map fun op => ["op", op]

/-- Modelled from the spec: the canonical representative of a state rearranges
each unordered facet into the engine's canonical member order (its members
sorted by fingerprint); ordered facets are kept as they are. -/
def canonicalRep (s : ExplorationState) : ExplorationState :=
  { H := s.H.mergeSort fun a b => hypFingerprint a ≤ hypFingerprint b
    E := s.E.mergeSort fun a b => evFingerprint a ≤ evFingerprint b
    K := s.K.mergeSort fun a b => knFingerprint a ≤ knFingerprint b
    A := s.A
    J := s.J }

/-- Malformed-facet predicate used to state the error-handling claims: some
member lacks an identity, or identities repeat within the facet (spec
sections 4.1 and 7). -/
def facetMalformed {α : Type} (getId : α → Option String) (l : List α) : Prop :=
  (∃ m ∈ l, getId m = none) ∨ ¬ (l.map getId).Nodup

instance {α : Type} [DecidableEq α] (getId : α → Option String) (l : List α) :
    Decidable (facetMalformed getId l) := by
  unfold facetMalformed
  infer_instance

/-- Sorting is invariant under permutation of the input list. -/
theorem mergeSort_congr_perm {α : Type} [LinearOrder α] {l₁ l₂ : List α}
    (h : List.Perm l₁ l₂) : l₁.mergeSort = l₂.mergeSort :=
  List.eq_of_perm_of_sorted
    ((List.mergeSort_perm l₁ _).trans (h.trans (List.mergeSort_perm l₂ _).symm))
    (List.sorted_mergeSort' _) (List.sorted_mergeSort' _)

/-- Facet validation depends only on the multiset of members, not their
order. -/
theorem facetError_congr_perm {α : Type} (getId : α → Option String)
    (facet : String) {l₁ l₂ : List α} (h : List.Perm l₁ l₂) :
    facetError getId facet l₁ = facetError getId facet l₂ := by
  have hall : (l₁.all fun m => (getId m).isSome)
      = (l₂.all fun m => (getId m).isSome) := by
    rw [Bool.eq_iff_iff]
    simp only [List.all_eq_true]
    exact ⟨fun hx m hm => hx m (h.mem_iff.mpr hm),
           fun hx m hm => hx m (h.mem_iff.mp hm)⟩
  have hnd : decide (l₁.map getId).Nodup = decide (l₂.map getId).Nodup :=
    decide_eq_decide.mpr (h.map getId).nodup_iff
  unfold facetError
  rw [hall, hnd]

/-- Canonicalization of states is congruent under permutation of the unordered
facets: shared helper behind the order-insensitivity and idempotence claims. -/
theorem canonicalize_state_congr {s₁ s₂ : ExplorationState}
    (hH : List.Perm s₁.H s₂.H) (hE : List.Perm s₁.E s₂.E)
    (hK : List.Perm s₁.K s₂.K) (hA : s₁.A = s₂.A) (hJ : s₁.J = s₂.J) :
    canonicalize_state s₁ = canonicalize_state s₂ := by
  unfold canonicalize_state
  rw [facetError_congr_perm Hypothesis.id "H" hH,
      facetError_congr_perm Evidence.id "E" hE,
      facetError_congr_perm Knowledge.id "K" hK,
      mergeSort_congr_perm (hH.map hypFingerprint),
      mergeSort_congr_perm (hE.map evFingerprint),
      mergeSort_congr_perm (hK.map knFingerprint), hA, hJ]

/-- A facet is well-formed exactly when its validation reports no error. -/
theorem facetError_eq_none_iff {α : Type} (getId : α → Option String)
    (facet : String) (l : List α) :
    facetError getId facet l = none ↔ ¬ facetMalformed getId l := by
  unfold facetError facetMalformed
  split_ifs with h1 h2
  · simp only [Bool.not_eq_true', List.all_eq_false] at h1
    obtain ⟨m, hm, hns⟩ := h1
    simp only [reduceCtorEq, false_iff, not_not]
    exact Or.inl ⟨m, hm, Option.not_isSome_iff_eq_none.mp (by simpa using hns)⟩
  · simp only [Bool.not_eq_true', decide_eq_false_iff_not] at h2
    simp only [reduceCtorEq, false_iff, not_not]
    exact Or.inr h2
  · simp only [Bool.not_eq_true', Bool.not_eq_false] at h1 h2
    simp only [List.all_eq_true] at h1
    simp only [decide_eq_true_eq] at h2
    simp only [true_iff]
    rintro (⟨m, hm, hnone⟩ | hdup)
    · have := h1 m hm
      rw [hnone] at this
      simp at this
    · exact hdup h2

/-- Canonicalization succeeds exactly when all three unordered facets validate
without error. -/
theorem canonicalize_state_ok_iff (s : ExplorationState) :
    (∃ c, canonicalize_state s = .ok c)
      ↔ facetError Hypothesis.id "H" s.H = none
        ∧ facetError Evidence.id "E" s.E = none
        ∧ facetError Knowledge.id "K" s.K = none := by
  unfold canonicalize_state
  cases hH : facetError Hypothesis.id "H" s.H with
  | some e => simp
  | none =>
    cases hE : facetError Evidence.id "E" s.E with
    | some e => simp
    | none =>
      cases hK : facetError Knowledge.id "K" s.K with
      | some e => simp
      | none => simp

/-- Recover a record's identity field from its fingerprint. -/
def fpIdent (fp : List String) : Option String :=
  if fp.getD 0 "" = "1" then some (fp.getD 1 "") else none

/-- The fingerprint of a hypothesis determines its identity. -/
theorem fpIdent_hypFingerprint (h : Hypothesis) :
    fpIdent (hypFingerprint h) = h.id := by
  cases hid : h.id <;> simp [hypFingerprint, fpIdent, hid]

/-- C1: for every exploration state and every permutation of the members within
its unordered facets (hypotheses, evidence, constraints), canonicalization
returns the same canonical identifier; in particular two calls on
structurally-equal states (the identity permutation) return the same
identifier. -/
theorem canonicalize_state_order_insensitive (s₁ s₂ : ExplorationState)
    (hH : List.Perm s₁.H s₂.H) (hE : List.Perm s₁.E s₂.E)
    (hK : List.Perm s₁.K s₂.K) (hA : s₁.A = s₂.A) (hJ : s₁.J = s₂.J) :
    canonicalize_state s₁ = canonicalize_state s₂ :=
  canonicalize_state_congr hH hE hK hA hJ

/-- Concrete state used by the order-insensitivity witness. -/
def stateW1 : ExplorationState :=
  { H := [⟨some "h1", "License compliance required", "open"⟩,
          ⟨some "h2", "Security vulnerabilities must be patched", "open"⟩]
    E := [⟨some "e1", "code", "src/main.py"⟩, ⟨some "e2", "code", "LICENSE"⟩]
    K := [⟨some "k1", "internal", "eu_ai_act_transparency"⟩]
    A := ["Meet"]
    J := ["entry1"] }

/-- The same state with its H and E facet members permuted. -/
def stateW2 : ExplorationState :=
  { H := [⟨some "h2", "Security vulnerabilities must be patched", "open"⟩,
          ⟨some "h1", "License compliance required", "open"⟩]
    E := [⟨some "e2", "code", "LICENSE"⟩, ⟨some "e1", "code", "src/main.py"⟩]
    K := [⟨some "k1", "internal", "eu_ai_act_transparency"⟩]
    A := ["Meet"]
    J := ["entry1"] }

/-- Witness for C1 at a concrete permuted pair of states. -/
theorem canonicalize_state_order_insensitive_witness :
    canonicalize_state stateW1 = canonicalize_state stateW2 :=
  canonicalize_state_order_insensitive stateW1 stateW2
    (by decide) (by decide) (by decide) rfl rfl

/-- C6: canonicalization is idempotent; canonicalizing the canonical
representative of any input returns the same identifier as canonicalizing the
input itself. -/
theorem canonicalize_state_idempotent (s : ExplorationState) :
    canonicalize_state (canonicalRep s) = canonicalize_state s :=
  canonicalize_state_congr
    (List.mergeSort_perm s.H _) (List.mergeSort_perm s.E _)
    (List.mergeSort_perm s.K _) rfl rfl

/-- Sorted normal forms agree only for lists with the same members. -/
theorem perm_of_mergeSort_eq {α : Type} [LinearOrder α] {l₁ l₂ : List α}
    (h : l₁.mergeSort = l₂.mergeSort) : List.Perm l₁ l₂ := by
  have p1 : List.Perm l₁ l₁.mergeSort := (List.mergeSort_perm l₁ _).symm
  rw [h] at p1
  exact p1.trans (List.mergeSort_perm l₂ _)

/-- A successful canonicalization's hypothesis component is the sorted list of
hypothesis fingerprints. -/
theorem canonicalize_state_ok_hFp {s : ExplorationState} {c : CanonicalId}
    (h : canonicalize_state s = .ok c) :
    c.hFp = (s.H.map hypFingerprint).mergeSort := by
  unfold canonicalize_state at h
  cases h1 : facetError Hypothesis.id "H" s.H <;> rw [h1] at h
  · cases h2 : facetError Evidence.id "E" s.E <;> rw [h2] at h
    · cases h3 : facetError Knowledge.id "K" s.K <;> rw [h3] at h
      · cases h
        rfl
      · exact absurd h (by simp)
    · exact absurd h (by simp)
  · exact absurd h (by simp)

/-- C2: for well-formed states that differ in at least one hypothesis identity
(the multisets of hypothesis identities are not equal, as with the tested
states carrying h1 versus h2), canonical ids differ; structurally identical
states get the same id; equal operation sequences get the same choreography id
and differing sequences get different ones. -/
theorem canonicalize_distinguishes_nonequivalent (s₁ s₂ : ExplorationState) :
    ((∃ c, canonicalize_state s₁ = .ok c) →
      ¬ List.Perm (s₁.H.map Hypothesis.id) (s₂.H.map Hypothesis.id) →
      canonicalize_state s₁ ≠ canonicalize_state s₂)
    ∧ (∀ s₃ s₄ : ExplorationState, s₃ = s₄ →
        canonicalize_state s₃ = canonicalize_state s₄)
    ∧ (∀ ops₁ ops₂ : List String,
        (ops₁ = ops₂ →
          canonicalize_choreography ops₁ = canonicalize_choreography ops₂)
        ∧ (ops₁ ≠ ops₂ →
          canonicalize_choreography ops₁ ≠ canonicalize_choreography ops₂)) := by
  refine ⟨?_, fun s₃ s₄ h => by rw [h], fun ops₁ ops₂ => ⟨fun h => by rw [h], ?_⟩⟩
  · intro hok hne heq
    obtain ⟨c, hc⟩ := hok
    have hc2 : canonicalize_state s₂ = .ok c := heq.symm.trans hc
    have hfp : (s₁.H.map hypFingerprint).mergeSort
        = (s₂.H.map hypFingerprint).mergeSort := by
      rw [← canonicalize_state_ok_hFp hc, ← canonicalize_state_ok_hFp hc2]
    have hperm := perm_of_mergeSort_eq hfp
    apply hne
    have h2 := hperm.map fpIdent
    rw [List.map_map, List.map_map] at h2
    simpa [Function.comp_def, fpIdent_hypFingerprint] using h2
  · intro hne heq
    apply hne
    have hinj : Function.Injective (fun op : String => ["op", op]) := by
      intro a b hab
      simpa using hab
    exact List.map_injective_iff.mpr hinj heq

/-- States used by the distinguishing witness, taken from the repository's own
test (scripts/test_discovery_engine.py, test_egraph_functionality). -/
def stateT1 : ExplorationState :=
  { H := [⟨some "h1", "", ""⟩], E := [], K := [], A := [], J := [] }

/-- Same shape as stateT1 but with hypothesis identity h2. -/
def stateT3 : ExplorationState :=
  { H := [⟨some "h2", "", ""⟩], E := [], K := [], A := [], J := [] }

/-- Witness for C2 at the test's concrete states and choreographies. -/
theorem canonicalize_distinguishes_nonequivalent_witness :
    canonicalize_state stateT1 ≠ canonicalize_state stateT3
    ∧ canonicalize_choreography ["Meet", "Verify", "Normalize"]
        ≠ canonicalize_choreography ["Generalize", "Contrast", "Verify"] :=
  ⟨(canonicalize_distinguishes_nonequivalent stateT1 stateT3).1 ⟨_, rfl⟩ (by decide),
   ((canonicalize_distinguishes_nonequivalent stateT1 stateT3).2.2 _ _).2 (by decide)⟩

/-- C7: malformed input (a facet member lacking a required identity, or
duplicate identities within a facet) makes canonicalization fail with a
reported input error surfaced to the caller, while a well-formed input that is
a facet-member reordering of another well-formed input never produces an
error. -/
theorem canonicalize_input_error_handling (s s₁ s₂ : ExplorationState) :
    ((facetMalformed Hypothesis.id s.H ∨ facetMalformed Evidence.id s.E
        ∨ facetMalformed Knowledge.id s.K) →
      ∃ e, canonicalize_state s = .error e)
    ∧ ((¬ facetMalformed Hypothesis.id s₁.H ∧ ¬ facetMalformed Evidence.id s₁.E
        ∧ ¬ facetMalformed Knowledge.id s₁.K) →
      List.Perm s₁.H s₂.H → List.Perm s₁.E s₂.E → List.Perm s₁.K s₂.K →
      s₁.A = s₂.A → s₁.J = s₂.J →
      ∃ c, canonicalize_state s₂ = .ok c) := by
  constructor
  · intro hmal
    cases hres : canonicalize_state s with
    | error e => exact ⟨e, rfl⟩
    | ok c =>
      exfalso
      have hok := (canonicalize_state_ok_iff s).mp ⟨c, hres⟩
      rcases hmal with h | h | h
      · exact (facetError_eq_none_iff Hypothesis.id "H" s.H).mp hok.1 h
      · exact (facetError_eq_none_iff Evidence.id "E" s.E).mp hok.2.1 h
      · exact (facetError_eq_none_iff Knowledge.id "K" s.K).mp hok.2.2 h
  · intro hwf hH hE hK hA hJ
    rw [← canonicalize_state_congr hH hE hK hA hJ]
    exact (canonicalize_state_ok_iff s₁).mpr
      ⟨(facetError_eq_none_iff Hypothesis.id "H" s₁.H).mpr hwf.1,
       (facetError_eq_none_iff Evidence.id "E" s₁.E).mpr hwf.2.1,
       (facetError_eq_none_iff Knowledge.id "K" s₁.K).mpr hwf.2.2⟩

/-- Malformed state: duplicate hypothesis identities within the H facet. -/
def stateBad : ExplorationState :=
  { H := [⟨some "x", "first", "open"⟩, ⟨some "x", "second", "open"⟩]
    E := [], K := [], A := [], J := [] }

/-- Well-formed state used by the error-handling witness. -/
def stateWf1 : ExplorationState :=
  { H := [⟨some "ha", "t1", "open"⟩]
    E := []
    K := [⟨some "ka", "internal", "r1"⟩, ⟨some "kb", "internal", "r2"⟩]
    A := [], J := [] }

/-- The same state with the K facet members swapped. -/
def stateWf2 : ExplorationState :=
  { H := [⟨some "ha", "t1", "open"⟩]
    E := []
    K := [⟨some "kb", "internal", "r2"⟩, ⟨some "ka", "internal", "r1"⟩]
    A := [], J := [] }

/-- Witness for C7: a duplicate-identity state errors, and a reordered
well-formed state canonicalizes without error. -/
theorem canonicalize_input_error_handling_witness :
    (∃ e, canonicalize_state stateBad = .error e)
    ∧ (∃ c, canonicalize_state stateWf2 = .ok c) :=
  ⟨(canonicalize_input_error_handling stateBad stateWf1 stateWf2).1
      (Or.inl (by decide)),
   (canonicalize_input_error_handling stateBad stateWf1 stateWf2).2
      ⟨by decide, by decide, by decide⟩ (by decide) (by decide) (by decide) rfl rfl⟩

/-! ## Selection layer (spec section 4.4)

Modelled from the spec: `orchestrator/selection.py` is absent from the source
tree; only `orchestrator/__init__.py` re-exports `BanditSelector` and
`MCTSSelector`.  Per spec section 4.4 the layer exposes select over candidates
annotated with predicted cost/value vectors, applies the Pareto filter before
either strategy, and then lets the configured strategy (bandit or MCTS) rank
the surviving candidates; the strategies differ only in how they pick among
the filtered candidates.
-/

/-- Modelled from the spec: a selection candidate carries an identity and a
predicted cost/value vector over the run's fixed cost dimensions γ and value
dimensions δ (spec sections 3 and 4.4). -/
structure Candidate (γ δ : Type) where
  id : String
  cost : γ → ℚ
  value : δ → ℚ

/-- Pareto dominance, modelled from the spec (section 4.4 and glossary): a
dominates b when a is no worse than b on every cost dimension and strictly
better on at least one value dimension. -/
def dominates {γ δ : Type} [Fintype γ] [Fintype δ] (a b : Candidate γ δ) : Prop :=
  (∀ d, a.cost d ≤ b.cost d) ∧ ∃ d, b.value d < a.value d

instance {γ δ : Type} [Fintype γ] [Fintype δ] (a b : Candidate γ δ) :
    Decidable (dominates a b) := by
  unfold dominates
  infer_instance

/-- Modelled from the spec: the Pareto filter discards every candidate whose
cost/value vector is dominated by another candidate in the input set, before
any ranking happens (spec section 4.4). -/
def paretoFilter {γ δ : Type} [Fintype γ] [Fintype δ]
    (cs : List (Candidate γ δ)) : List (Candidate γ δ) :=
  cs.filter fun c => !cs.any fun d => decide (dominates d c)

/-- Modelled from the spec: select applies the Pareto filter and then hands
the surviving candidates to the configured strategy (bandit or MCTS), which
picks one of them (spec section 4.4). -/
def select {γ δ : Type} [Fintype γ] [Fintype δ]
    (strategy : List (Candidate γ δ) → Option (Candidate γ δ))
    (cs : List (Candidate γ δ)) : Option (Candidate γ δ) :=
  strategy (paretoFilter cs)

/-- C3: whatever strategy is configured (any strategy that picks a member of
the list it is given, as both the bandit and the MCTS criteria do), select
never returns a candidate that is Pareto-dominated by another candidate of the
input list, whenever a non-dominated candidate exists in the list. -/
theorem select_never_returns_dominated {γ δ : Type} [Fintype γ] [Fintype δ]
    (strategy : List (Candidate γ δ) → Option (Candidate γ δ))
    (hstrat : ∀ l x, strategy l = some x → x ∈ l)
    (cs : List (Candidate γ δ)) (c d : Candidate γ δ)
    (hd : d ∈ cs) (hdom : dominates d c)
    (_hnon : ∃ e ∈ cs, ∀ f ∈ cs, ¬ dominates f e) :
    select strategy cs ≠ some c := by
  intro hsel
  have hmem : c ∈ paretoFilter cs := hstrat _ _ hsel
  have hkeep := (List.mem_filter.mp hmem).2
  simp only [Bool.not_eq_true', List.any_eq_false, decide_eq_false_iff_not] at hkeep
  exact hkeep d hd (decide_eq_true hdom)

/-- Strategy used by the selection witness: take the first surviving
candidate. -/
def headStrategy {γ δ : Type} (l : List (Candidate γ δ)) : Option (Candidate γ δ) :=
  l.head?

/-- Non-dominated witness candidate: cheaper and more valuable. -/
def candA : Candidate (Fin 1) (Fin 1) :=
  { id := "a", cost := fun _ => 1, value := fun _ => 2 }

/-- Dominated witness candidate: costs more and yields less than candA. -/
def candB : Candidate (Fin 1) (Fin 1) :=
  { id := "b", cost := fun _ => 2, value := fun _ => 1 }

/-- Witness for C3: with both candidates in play, select never picks the
dominated one. -/
theorem select_never_returns_dominated_witness :
    select headStrategy [candA, candB] ≠ some candB :=
  select_never_returns_dominated headStrategy
    (fun l x h => List.mem_of_mem_head? h)
    [candA, candB] candB candA (List.mem_cons_self candA [candB])
    (by decide)
    ⟨candA, List.mem_cons_self candA [candB], by decide⟩

/-! ## CEGIS loop (spec section 4.3)

Modelled from the spec: `orchestrator/cegis_loop.py` is absent from the source
tree; only `orchestrator/__init__.py` re-exports `CEGISLoop`, `Choreography`
and `SynthesisResult`.  The model follows the Propose/Verify/Refine/Accept/
Exhausted state machine of section 4.3: a proposer builds a candidate from the
counterexample history and the remaining budget, the oracle verifies it and
reports the actual observed cost, acceptance records the choreography with its
actual cost, refinement feeds the counterexample into the next proposal, and
the run is Exhausted (a rejection carrying the last counterexample) when the
budget is depleted along any dimension or the iteration cap is hit.
-/

/-- Modelled from the spec: a counterexample is an exploration state witnessing
the failure of a candidate (spec section 3). -/
structure CounterExample where
  state : ExplorationState
deriving DecidableEq, Repr

/-- Modelled from the spec: a choreography has an identity, an ordered
operation sequence, precondition and expected-gain sets, a guard set, a budget
vector over the cost dimensions γ, diversity tags, and rationale text (spec
section 3). -/
structure Choreography (γ : Type) where
  id : String
  ops : List String
  pre : List String
  post : List String
  guards : List String
  budgets : γ → ℚ
  diversityKeys : List String
  rationale : String

/-- Modelled from the spec: the oracle's verification verdict for a candidate,
always accompanied by the actual observed cost of the attempt (spec
section 4.3). -/
inductive VerifyAnswer (γ : Type) where
  | confirmed (actualCost : γ → ℚ)
  | refuted (ce : CounterExample) (actualCost : γ → ℚ)

/-- Actual observed cost carried by a verification answer. -/
def VerifyAnswer.actual {γ : Type} : VerifyAnswer γ → (γ → ℚ)
  | .confirmed a => a
  | .refuted _ a => a

/-- Modelled from the spec: the outcome of a CEGIS run — an accepted
choreography with its actual observed cost vector, or a rejection carrying the
last counterexample (spec section 3). -/
inductive SynthesisResult (γ : Type) where
  | accepted (c : Choreography γ) (actualCost : γ → ℚ)
  | rejected (lastCE : Option CounterExample)

/-- A cost vector fits a budget when it does not exceed it on any
dimension. -/
def withinBudget {γ : Type} [Fintype γ] (cost budget : γ → ℚ) : Prop :=
  ∀ d, cost d ≤ budget d

instance {γ : Type} [Fintype γ] (cost budget : γ → ℚ) :
    Decidable (withinBudget cost budget) := by
  unfold withinBudget
  infer_instance

/-- Modelled from the spec: one CEGIS run (spec section 4.3).  Each iteration
proposes a candidate from the remaining budget and the counterexample history,
verifies it, and observes its actual cost.  A verified candidate is accepted
only while its actual cost fits the remaining budget; otherwise the budget is
depleted and the run is Exhausted.  A refuted candidate's counterexample is
fed back to the proposer and its cost is subtracted from the remaining budget
(the ledger subtracts actual costs as they are observed, spec section 4.5).
The fuel argument is the iteration cap from ExplorationConfig. -/
def cegisRun {γ : Type} [Fintype γ]
    (oracle : Choreography γ → VerifyAnswer γ)
    (propose : (γ → ℚ) → List CounterExample → Choreography γ) :
    Nat → (γ → ℚ) → List CounterExample → SynthesisResult γ
  | 0, _, ces => .rejected ces.head?
  | fuel + 1, budget, ces =>
    let cand := propose budget ces
    match oracle cand with
    | .confirmed actual =>
      if withinBudget actual budget then .accepted cand actual
      else .rejected ces.head?
    | .refuted ce actual =>
      if withinBudget actual budget then
        cegisRun oracle propose fuel (fun d => budget d - actual d) (ce :: ces)
      else .rejected (some ce)

/-- C4: a CEGIS run never accepts a choreography whose actual observed cost
vector exceeds the run's remaining budget on any dimension (costs are
magnitudes, so observed costs are nonnegative). -/
theorem cegis_accept_within_budget {γ : Type} [Fintype γ]
    (oracle : Choreography γ → VerifyAnswer γ)
    (propose : (γ → ℚ) → List CounterExample → Choreography γ)
    (hpos : ∀ cand d, 0 ≤ (oracle cand).actual d) :
    ∀ (fuel : Nat) (budget : γ → ℚ) (ces : List CounterExample)
      (c : Choreography γ) (v : γ → ℚ),
      cegisRun oracle propose fuel budget ces = .accepted c v →
      withinBudget v budget := by
  intro fuel
  induction fuel with
  | zero =>
    intro budget ces c v h
    exact absurd h (by simp [cegisRun])
  | succ n ih =>
    intro budget ces c v h
    rw [cegisRun] at h
    split at h
    · split at h
      · rename_i actual heq hwb
        cases h
        exact hwb
      · exact absurd h (by simp)
    · split at h
      · rename_i ce actual heq hwb
        have hrec := ih (fun d => budget d - actual d) (ce :: ces) c v h
        intro d
        have hge : 0 ≤ actual d := by
          have hp := hpos (propose budget ces) d
          rw [heq] at hp
          exact hp
        have hr := hrec d
        have hsub : budget d - actual d ≤ budget d := by linarith
        exact le_trans hr hsub
      · exact absurd h (by simp)

/-- Oracle for the acceptance witness: every candidate verifies at unit
cost. -/
def oracleW : Choreography (Fin 1) → VerifyAnswer (Fin 1) :=
  fun _ => .confirmed fun _ => 1

/-- Proposer for the acceptance witness. -/
def proposeW : ((Fin 1) → ℚ) → List CounterExample → Choreography (Fin 1) :=
  fun _ _ =>
    { id := "choreo_w", ops := ["Meet", "Verify"], pre := [], post := []
      guards := [], budgets := fun _ => 5, diversityKeys := [], rationale := "w" }

/-- Witness for C4: a concrete accepting run stays within its budget. -/
theorem cegis_accept_within_budget_witness :
    withinBudget (fun _ : Fin 1 => (1 : ℚ)) (fun _ => 5) :=
  cegis_accept_within_budget oracleW proposeW
    (fun cand d => by simp [oracleW, VerifyAnswer.actual])
    1 (fun _ => 5) [] (proposeW (fun _ => 5) [])
    (fun _ => 1) (by rw [cegisRun]; simp [oracleW, withinBudget])

/-! ## Attribute exploration loop (spec section 4.2)

Modelled from the spec: `orchestrator/ae_loop.py` is absent from the source
tree; only `orchestrator/__init__.py` re-exports `AELoop`, `Implication` and
`CounterExample`.  Per spec section 4.2 the Generate-Candidate step performs a
classical Next-Closure traversal: candidates (attribute subsets, modelled as
their position in the fixed total order over subsets of n attributes, an
ordinal below 2 ^ n) are generated in a fixed total order, each filtered
against the closure of the implications accepted so far, and the loop
advances past each proposed candidate so that no candidate is proposed twice
and the traversal is bounded by 2 ^ n steps.
-/

/-- Modelled from the spec: an implication has a premise and a conclusion
(attribute identifier sets), a confidence score, a provenance tag and a
creation timestamp (spec section 3). -/
structure Implication where
  id : String
  premise : List String
  conclusion : List String
  confidence : ℚ
  provenance : String
  createdAt : Nat
deriving DecidableEq, Repr

/-- First position at or after pos, below the bound, accepted by the
closure filter: the lexicographically-next candidate of the Next-Closure
traversal (spec section 4.2). -/
def nextFrom (accept : Nat → Bool) (bound : Nat) (pos : Nat) : Option Nat :=
  if pos < bound then
    if accept pos then some pos else nextFrom accept bound (pos + 1)
  else none
termination_by bound - pos
decreasing_by omega

/-- A found candidate lies between the scan start and the bound and passes the
filter. -/
theorem nextFrom_spec (accept : Nat → Bool) (bound : Nat) :
    ∀ pos m, nextFrom accept bound pos = some m →
      pos ≤ m ∧ m < bound ∧ accept m = true := by
  intro pos
  induction pos using nextFrom.induct accept bound with
  | case1 pos hlt hacc =>
    intro m hm
    rw [nextFrom, if_pos hlt, if_pos hacc] at hm
    cases hm
    exact ⟨Nat.le_refl _, hlt, hacc⟩
  | case2 pos hlt hacc ih =>
    intro m hm
    rw [nextFrom, if_pos hlt, if_neg hacc] at hm
    have hs := ih m hm
    exact ⟨Nat.le_of_succ_le hs.1, hs.2.1, hs.2.2⟩
  | case3 pos hlt =>
    intro m hm
    rw [nextFrom, if_neg hlt] at hm
    exact absurd hm (by simp)

/-- Modelled from the spec: the candidate-generation trace of one AE run over
n attributes (spec section 4.2).  The implication base grows by integrating
each oracle verdict (integrate covers confirmation, refutation and the
undecided marking uniformly — the claim is insensitive to the verdict), the
filter checks a candidate against the closure of the base accepted so far, and
the traversal resumes right after the last proposed candidate.  Returns the
positions proposed, in order of proposal. -/
def aeRun (filterC : List Implication → Nat → Bool)
    (integrate : List Implication → Nat → List Implication)
    (n : Nat) (base : List Implication) (pos : Nat) : List Nat :=
  match hnext : nextFrom (filterC base) (2 ^ n) pos with
  | none => []
  | some m => m :: aeRun filterC integrate n (integrate base m) (m + 1)
termination_by 2 ^ n - pos
decreasing_by
  have hs := nextFrom_spec (filterC base) (2 ^ n) pos m hnext
  omega

/-- Unfolding equation of aeRun when the generator is exhausted. -/
theorem aeRun_next_none (filterC : List Implication → Nat → Bool)
    (integrate : List Implication → Nat → List Implication)
    (n : Nat) (base : List Implication) (pos : Nat)
    (h : nextFrom (filterC base) (2 ^ n) pos = none) :
    aeRun filterC integrate n base pos = [] := by
  rw [aeRun]
  split
  · rfl
  · rename_i m heq
    rw [h] at heq
    exact absurd heq (by simp)

/-- Unfolding equation of aeRun when a candidate is found. -/
theorem aeRun_next_some (filterC : List Implication → Nat → Bool)
    (integrate : List Implication → Nat → List Implication)
    (n : Nat) (base : List Implication) (pos m : Nat)
    (h : nextFrom (filterC base) (2 ^ n) pos = some m) :
    aeRun filterC integrate n base pos
      = m :: aeRun filterC integrate n (integrate base m) (m + 1) := by
  rw [aeRun]
  split
  · rename_i heq
    rw [h] at heq
    exact absurd heq (by simp)
  · rename_i m' heq
    rw [h] at heq
    cases heq
    rfl

/-- Invariant of the traversal: every proposed candidate lies between the scan
start and 2 ^ n, and proposals strictly increase. -/
theorem aeRun_bounds_pairwise (filterC : List Implication → Nat → Bool)
    (integrate : List Implication → Nat → List Implication) (n : Nat) :
    ∀ (k : Nat) (base : List Implication) (pos : Nat), 2 ^ n - pos ≤ k →
      (∀ m ∈ aeRun filterC integrate n base pos, pos ≤ m ∧ m < 2 ^ n)
      ∧ (aeRun filterC integrate n base pos).Pairwise (· < ·) := by
  intro k
  induction k with
  | zero =>
    intro base pos hk
    have hx : nextFrom (filterC base) (2 ^ n) pos = none := by
      rw [nextFrom, if_neg (by omega)]
    rw [aeRun_next_none filterC integrate n base pos hx]
    exact ⟨by simp, by simp⟩
  | succ k ih =>
    intro base pos hk
    cases hx : nextFrom (filterC base) (2 ^ n) pos with
    | none =>
      rw [aeRun_next_none filterC integrate n base pos hx]
      exact ⟨by simp, by simp⟩
    | some m =>
      obtain ⟨hpm, hmb, hacc⟩ := nextFrom_spec (filterC base) (2 ^ n) pos m hx
      rw [aeRun_next_some filterC integrate n base pos m hx]
      have hrec := ih (integrate base m) (m + 1) (by omega)
      constructor
      · intro x hxm
        rcases List.mem_cons.mp hxm with rfl | hxm'
        · exact ⟨hpm, hmb⟩
        · have hb := hrec.1 x hxm'
          exact ⟨by omega, hb.2⟩
      · refine List.Pairwise.cons ?_ hrec.2
        intro y hy
        have hb := hrec.1 y hy
        omega

/-- C5: within a single AE run the candidate generator proposes candidates at
strictly increasing positions of the fixed total order over attribute subsets,
hence never proposes the same candidate twice, and the traversal performs at
most 2 ^ n generation steps. -/
theorem ae_candidates_strictly_monotone_bounded
    (filterC : List Implication → Nat → Bool)
    (integrate : List Implication → Nat → List Implication)
    (n : Nat) (base : List Implication) :
    (aeRun filterC integrate n base 0).Pairwise (· < ·)
    ∧ (aeRun filterC integrate n base 0).Nodup
    ∧ (aeRun filterC integrate n base 0).length ≤ 2 ^ n := by
  obtain ⟨hmem, hpw⟩ :=
    aeRun_bounds_pairwise filterC integrate n (2 ^ n) base 0 (by simp)
  have hnd : (aeRun filterC integrate n base 0).Nodup :=
    hpw.imp fun hlt => Nat.ne_of_lt hlt
  refine ⟨hpw, hnd, ?_⟩
  have hsub : (aeRun filterC integrate n base 0).toFinset
      ⊆ Finset.range (2 ^ n) := by
    intro x hx
    rw [List.mem_toFinset] at hx
    rw [Finset.mem_range]
    exact (hmem x hx).2
  have hcard := Finset.card_le_card hsub
  rw [Finset.card_range] at hcard
  rw [← List.toFinset_card_of_nodup hnd]
  exact hcard

/-! ## Setup and validation scripts

Direct embedding of `scripts/setup_discovery_engine.py` and
`scripts/validate_migration.py`.  The process environment is modelled as a
`World` of observations (path existence, command outcomes, file contents,
JSON parseability, importability); each Python function becomes a pure
function from the world to its return value paired with the ordered list of
side effects it performs.  Paths are interpreted relative to the directory
the script operates in (the scripts chdir into `discovery-engine-2cat`
before any check).  File contents written by the setup script and the
pretty-printed validation report are not modelled beyond their effect
entries, since no claim depends on them.
-/

/-- Side effects a script run can perform, in order. -/
inductive Effect where
  | print (msg : String)
  | runCmd (cmd : String)
  | chdir (dir : String)
  | mkdirP (path : String)
  | writeFile (path : String)
deriving DecidableEq, Repr

/-- Observations of the process environment made by the scripts. -/
structure World where
  pathExists : String → Bool
  cmdOutcome : String → Except String String
  isWindows : Bool
  fileContains : String → String → Bool
  validJson : String → Bool
  jsonHasField : String → String → Bool
  importOk : String → Bool

/-- Embeds run_command (setup_discovery_engine.py lines 13-28): run the shell
command; on success return the stripped standard output, on a
CalledProcessError print the failure and the captured stderr and return None —
the exception is never propagated.  Python str.strip() on the captured text is
modelled by String.trim. -/
def run_command (w : World) (cmd : String) : Option String × List Effect :=
  match w.cmdOutcome cmd with
  | .ok out => (some out.trim, [.runCmd cmd])
  | .error err =>
    (none, [.runCmd cmd,
            .print ("❌ Command failed: " ++ cmd),
            .print ("Error: " ++ err)])

/-- Embeds setup_git_repository (lines 31-41). -/
def setup_git_repository (w : World) : Bool × List Effect :=
  let hdr := [Effect.print "🔧 Setting up Git repository..."]
  if !(w.pathExists ".git") then
    let r := run_command w "git init"
    (true, hdr ++ r.2 ++ [.print "✅ Git repository initialized"])
  else
    (true, hdr ++ [.print "✅ Git repository already exists"])

/-- URL of the proof-engine-core repository (line 49). -/
def proof_engine_url : String := "https://github.com/your-org/proof-engine-core.git"

/-- Embeds setup_submodule (lines 44-62): add the submodule via run_command;
when that returns a result, pin it to v0.1.0; when it returns None the failure
is only printed — the function returns True either way. -/
def setup_submodule (w : World) : Bool × List Effect :=
  let hdr := [Effect.print "🔗 Setting up proof-engine-core submodule..."]
  let r := run_command w
    ("git submodule add " ++ proof_engine_url ++ " external/proof-engine-core")
  match r.1 with
  | some _ =>
    let r2 := run_command w "cd external/proof-engine-core && git checkout v0.1.0"
    (true, hdr ++ r.2 ++ [.print "✅ Submodule added"] ++ r2.2
      ++ [.print "✅ Submodule pinned to v0.1.0"])
  | none =>
    (true, hdr ++ r.2
      ++ [.print "⚠️  Submodule setup failed - please configure manually"])

/-- Embeds setup_python_environment (lines 65-89). -/
def setup_python_environment (w : World) : Bool × List Effect :=
  let hdr := [Effect.print "🐍 Setting up Python environment..."]
  let venv :=
    if !(w.pathExists ".venv") then
      let r := run_command w "python -m venv .venv"
      r.2 ++ [Effect.print "✅ Virtual environment created"]
    else
      [Effect.print "✅ Virtual environment already exists"]
  let activate_cmd :=
    if w.isWindows then ".venv\\Scripts\\activate" else "source .venv/bin/activate"
  let install_cmd :=
    activate_cmd ++ " && pip install -U pip && pip install -r requirements.txt"
  let r := run_command w install_cmd
  let tail :=
    match r.1 with
    | some _ => [Effect.print "✅ Dependencies installed"]
    | none => [Effect.print "⚠️  Dependency installation failed"]
  (true, hdr ++ venv ++ r.2 ++ tail)

/-- Embeds create_initial_commit (lines 92-131); the multi-line commit message
literal is summarized by its first line in the command string. -/
def create_initial_commit (w : World) : Bool × List Effect :=
  let hdr := [Effect.print "📝 Creating initial commit..."]
  let r1 := run_command w "git add ."
  let r2 := run_command w "git commit -m \"Initial commit: Discovery Engine 2-Cat\""
  (true, hdr ++ r1.2 ++ r2.2 ++ [.print "✅ Initial commit created"])

/-- Embeds create_github_workflow (lines 134-220): writes the CI workflow file
under .github/workflows; the YAML content is not modelled. -/
def create_github_workflow (_w : World) : Bool × List Effect :=
  (true, [.print "🔄 Creating GitHub Actions workflow...",
          .mkdirP ".github/workflows",
          .writeFile ".github/workflows/ci.yml",
          .print "✅ GitHub Actions workflow created"])

/-- Embeds create_domain_adapter (lines 223-380): writes the RegTech/Code
domain adapter module; the Python content is not modelled. -/
def create_domain_adapter (_w : World) : Bool × List Effect :=
  (true, [.print "🏢 Creating RegTech/Code domain adapter...",
          .mkdirP "domain/regtech_code",
          .writeFile "domain/regtech_code/__init__.py",
          .print "✅ RegTech/Code domain adapter created"])

/-- Banner printed by setup main before the directory check (lines 395-396). -/
def setupMainHeader : List Effect :=
  [.print "🚀 Discovery Engine 2-Cat Setup",
   .print (String.mk (List.replicate 40 '='))]

/-- Embeds main of setup_discovery_engine.py (lines 392-433): print the
banner; when the working directory has no discovery-engine-2cat subdirectory,
print an error and return False without doing anything else; otherwise chdir
into it and run the six setup steps in order. -/
def setupMain (w : World) : Bool × List Effect :=
  if !(w.pathExists "discovery-engine-2cat") then
    (false, setupMainHeader
      ++ [.print "❌ Please run this script from the parent directory"])
  else
    let r1 := setup_git_repository w
    let r2 := setup_submodule w
    let r3 := setup_python_environment w
    let r4 := create_github_workflow w
    let r5 := create_domain_adapter w
    let r6 := create_initial_commit w
    (true, setupMainHeader ++ [Effect.chdir "discovery-engine-2cat"]
      ++ r1.2 ++ r2.2 ++ r3.2 ++ r4.2 ++ r5.2 ++ r6.2
      ++ [.print "\n🎉 Discovery Engine 2-Cat setup completed!",
          .print "\n📋 Next steps:",
          .print "1. Configure the proof-engine-core submodule URL",
          .print "2. git remote add origin <discovery-engine-2cat-url>",
          .print "3. git push -u origin main",
          .print "4. Enable GitHub Actions",
          .print "5. Configure secrets for attestation signing"])

/-- Embeds check_file_exists (validate_migration.py lines 13-20). -/
def check_file_exists (w : World) (filePath desc : String) : Bool × List Effect :=
  if w.pathExists filePath then
    (true, [.print ("✅ " ++ desc ++ ": " ++ filePath)])
  else
    (false, [.print ("❌ " ++ desc ++ ": " ++ filePath ++ " - NOT FOUND")])

/-- Directory list required by check_directory_structure (lines 27-41). -/
def requiredDirs : List String :=
  ["orchestrator", "methods/ae", "methods/cegis", "methods/egraph",
   "domain/regtech_code", "schemas", "prompts", "bench", "ci", "tests",
   "docs", "scripts", "external/proof-engine-core"]

/-- Embeds check_directory_structure (lines 23-51): every required directory
must exist. -/
def check_directory_structure (w : World) : Bool × List Effect :=
  let items := requiredDirs.map fun d =>
    if w.pathExists d then (true, Effect.print ("✅ Directory: " ++ d))
    else (false, Effect.print ("❌ Directory: " ++ d ++ " - NOT FOUND"))
  (items.all (fun p => p.1),
   Effect.print "📁 Checking directory structure..." :: items.map (fun p => p.2))

/-- Common shape of the file-list checks (check_orchestrator_components,
check_methods_components, check_schemas, check_prompts, check_scripts,
check_config_files, check_domain_adapter): print a header, check each listed
file with check_file_exists, succeed when all exist. -/
def check_files_list (w : World) (hdr : String)
    (files : List (String × String)) : Bool × List Effect :=
  let results := files.map fun fd => check_file_exists w fd.1 fd.2
  (results.all (fun p => p.1),
   Effect.print hdr :: (results.map (fun p => p.2)).flatten)

/-- Embeds check_orchestrator_components (lines 54-70). -/
def check_orchestrator_components (w : World) : Bool × List Effect :=
  check_files_list w "\n🎭 Checking orchestrator components..."
    [("orchestrator/unified_orchestrator.py", "Unified Orchestrator"),
     ("orchestrator/ae_loop.py", "AE Loop"),
     ("orchestrator/cegis_loop.py", "CEGIS Loop"),
     ("orchestrator/selection.py", "Selection Strategies")]

/-- Embeds check_methods_components (lines 73-86). -/
def check_methods_components (w : World) : Bool × List Effect :=
  check_files_list w "\n🔬 Checking methods components..."
    [("methods/egraph/egraph.py", "E-graph Implementation")]

/-- Embeds check_schemas (lines 89-106). -/
def check_schemas (w : World) : Bool × List Effect :=
  check_files_list w "\n📋 Checking JSON schemas..."
    [("schemas/dca.schema.json", "DCA Schema"),
     ("schemas/composite-op.schema.json", "CompositeOp Schema"),
     ("schemas/domain-spec.schema.json", "DomainSpec Schema"),
     ("schemas/failreason-extended.schema.json", "FailReason Extended Schema"),
     ("schemas/domain-spec-regtech-code.json", "RegTech/Code Domain Spec")]

/-- Embeds check_prompts (lines 109-124). -/
def check_prompts (w : World) : Bool × List Effect :=
  check_files_list w "\n🤖 Checking LLM prompts..."
    [("prompts/ae_implications.tpl", "AE Implications Prompt"),
     ("prompts/ae_counterexamples.tpl", "AE Counterexamples Prompt"),
     ("prompts/cegis_choreography.tpl", "CEGIS Choreography Prompt")]

/-- Embeds check_scripts (lines 127-143). -/
def check_scripts (w : World) : Bool × List Effect :=
  check_files_list w "\n📜 Checking scripts..."
    [("scripts/test_discovery_engine.py", "Test Script"),
     ("scripts/demo_discovery_engine.py", "Demo Script"),
     ("scripts/setup_discovery_engine.py", "Setup Script"),
     ("scripts/validate_migration.py", "Validation Script")]

/-- Embeds check_config_files (lines 146-163). -/
def check_config_files (w : World) : Bool × List Effect :=
  check_files_list w "\n⚙️ Checking configuration files..."
    [("README.md", "README"),
     (".gitignore", "Git Ignore"),
     ("requirements.txt", "Requirements"),
     ("Makefile", "Makefile"),
     ("configs/unified_architecture.yaml", "Unified Architecture Config")]

/-- Import statements required by check_imports (lines 170-184). -/
def importChecks : List (String × List String) :=
  [("orchestrator/unified_orchestrator.py",
    ["from ..methods.egraph.egraph import EGraph", "from .ae_loop import AELoop"]),
   ("orchestrator/ae_loop.py", ["from ..methods.egraph.egraph import EGraph"]),
   ("orchestrator/cegis_loop.py", ["from ..methods.egraph.egraph import EGraph"])]

/-- Embeds check_imports (lines 166-201): every listed file must exist and
contain each of its listed import statements. -/
def check_imports (w : World) : Bool × List Effect :=
  let results := importChecks.map fun fc =>
    if w.pathExists fc.1 then
      let imps := fc.2.map fun stmt =>
        if w.fileContains fc.1 stmt then
          (true, Effect.print ("✅ Import found in " ++ fc.1 ++ ": " ++ stmt))
        else
          (false, Effect.print ("❌ Import missing in " ++ fc.1 ++ ": " ++ stmt))
      (imps.all (fun p => p.1), imps.map (fun p => p.2))
    else
      (false, [Effect.print ("❌ File not found: " ++ fc.1)])
  (results.all (fun p => p.1),
   Effect.print "\n🔗 Checking imports..." :: (results.map (fun p => p.2)).flatten)

/-- Schema files parsed by check_schema_validation (lines 208-213). -/
def schemaFilesForValidation : List String :=
  ["schemas/dca.schema.json", "schemas/composite-op.schema.json",
   "schemas/domain-spec.schema.json", "schemas/failreason-extended.schema.json"]

/-- Top-level fields required of each schema (line 222). -/
def requiredSchemaFields : List String := ["$id", "$schema", "title", "type"]

/-- Embeds check_schema_validation (lines 204-235): every schema file must
exist, parse as JSON and carry the four required top-level fields (the
exception text of a failed parse is not modelled). -/
def check_schema_validation (w : World) : Bool × List Effect :=
  let results := schemaFilesForValidation.map fun sf =>
    if w.pathExists sf then
      if w.validJson sf then
        let fields := requiredSchemaFields.map fun fld =>
          if w.jsonHasField sf fld then
            (true, Effect.print ("✅ Schema " ++ sf ++ " has field: " ++ fld))
          else
            (false,
             Effect.print ("❌ Schema " ++ sf ++ " missing required field: " ++ fld))
        (fields.all (fun p => p.1), fields.map (fun p => p.2))
      else
        (false, [Effect.print ("❌ Schema " ++ sf ++ " is not valid JSON")])
    else
      (false, [Effect.print ("❌ Schema file not found: " ++ sf)])
  (results.all (fun p => p.1),
   Effect.print "\n📋 Checking schema validation..."
     :: (results.map (fun p => p.2)).flatten)

/-- Embeds check_domain_adapter (lines 238-251). -/
def check_domain_adapter (w : World) : Bool × List Effect :=
  check_files_list w "\n🏢 Checking domain adapter..."
    [("domain/regtech_code/__init__.py", "RegTech Domain Adapter")]

/-- Embeds run_basic_tests (lines 254-298): import of the orchestrator, import
of the e-graph, and a JSON load of the DCA schema must all succeed, with an
early False return at the first failure. -/
def run_basic_tests (w : World) : Bool × List Effect :=
  let hdr := Effect.print "\n🧪 Running basic tests..."
  if !(w.importOk "orchestrator.unified_orchestrator.UnifiedOrchestrator") then
    (false, [hdr, .print "❌ UnifiedOrchestrator import failed"])
  else if !(w.importOk "methods.egraph.egraph.EGraph") then
    (false, [hdr, .print "✅ UnifiedOrchestrator import successful",
             .print "❌ EGraph import failed"])
  else if !(w.validJson "schemas/dca.schema.json") then
    (false, [hdr, .print "✅ UnifiedOrchestrator import successful",
             .print "✅ EGraph import successful",
             .print "❌ DCA schema load failed"])
  else
    (true, [hdr, .print "✅ UnifiedOrchestrator import successful",
            .print "✅ EGraph import successful",
            .print "✅ DCA schema load successful"])

/-- The eleven check outcomes of main's results dictionary (lines 352-364), in
order. -/
def checkResults (w : World) : List Bool :=
  [(check_directory_structure w).1,
   (check_orchestrator_components w).1,
   (check_methods_components w).1,
   (check_schemas w).1,
   (check_prompts w).1,
   (check_scripts w).1,
   (check_config_files w).1,
   (check_imports w).1,
   (check_schema_validation w).1,
   (check_domain_adapter w).1,
   (run_basic_tests w).1]

/-- Number of passing checks (generate_validation_report line 307). -/
def passedChecks (w : World) : Nat := (checkResults w).count true

/-- Embeds the success rate of generate_validation_report (line 308):
passed divided by total, times 100.  Python computes this in floating point;
for 0 to 11 passing checks out of 11 the float comparison against 80 agrees
with exact rational arithmetic, so the rate is modelled in ℚ. -/
def success_rate (w : World) : ℚ :=
  ((passedChecks w : ℚ) / ((checkResults w).length : ℚ)) * 100

/-- Banner printed by validation main before the directory check
(lines 333-334). -/
def validateMainHeader : List Effect :=
  [.print "🔍 Discovery Engine 2-Cat Migration Validation",
   .print (String.mk (List.replicate 60 '='))]

/-- Embeds main of validate_migration.py (lines 330-369): print the banner;
when the working directory has no discovery-engine-2cat subdirectory, print an
error and return False without running any check; otherwise chdir into it, run
the eleven checks, generate the report (its pretty-printing is not modelled)
and return whether the success rate is at least 80. -/
def validateMain (w : World) : Bool × List Effect :=
  if !(w.pathExists "discovery-engine-2cat") then
    (false, validateMainHeader
      ++ [.print "❌ Please run this script from the parent directory"])
  else
    (decide (80 ≤ success_rate w),
     validateMainHeader ++ [Effect.chdir "discovery-engine-2cat"]
       ++ (check_directory_structure w).2
       ++ (check_orchestrator_components w).2
       ++ (check_methods_components w).2
       ++ (check_schemas w).2
       ++ (check_prompts w).2
       ++ (check_scripts w).2
       ++ (check_config_files w).2
       ++ (check_imports w).2
       ++ (check_schema_validation w).2
       ++ (check_domain_adapter w).2
       ++ (run_basic_tests w).2
       ++ [.print "\n📊 Validation Report"])

/-- C8: run from a working directory without a discovery-engine-2cat
subdirectory, both script mains print the error banner and return False, and
every effect they perform is a print — no command is run, no file is written,
no check is executed. -/
theorem main_requires_repo_directory (w : World)
    (h : w.pathExists "discovery-engine-2cat" = false) :
    setupMain w = (false, setupMainHeader
      ++ [.print "❌ Please run this script from the parent directory"])
    ∧ validateMain w = (false, validateMainHeader
      ++ [.print "❌ Please run this script from the parent directory"])
    ∧ (∀ e ∈ (setupMain w).2, ∃ msg, e = Effect.print msg)
    ∧ (∀ e ∈ (validateMain w).2, ∃ msg, e = Effect.print msg) := by
  have hs : setupMain w = (false, setupMainHeader
      ++ [.print "❌ Please run this script from the parent directory"]) := by
    unfold setupMain
    rw [h]
    rfl
  have hv : validateMain w = (false, validateMainHeader
      ++ [.print "❌ Please run this script from the parent directory"]) := by
    unfold validateMain
    rw [h]
    rfl
  refine ⟨hs, hv, ?_, ?_⟩
  · intro e he
    rw [hs] at he
    simp only [setupMainHeader, List.cons_append, List.nil_append,
      List.mem_cons, List.not_mem_nil, or_false] at he
    rcases he with rfl | rfl | rfl <;> exact ⟨_, rfl⟩
  · intro e he
    rw [hv] at he
    simp only [validateMainHeader, List.cons_append, List.nil_append,
      List.mem_cons, List.not_mem_nil, or_false] at he
    rcases he with rfl | rfl | rfl <;> exact ⟨_, rfl⟩

/-- World with no discovery-engine-2cat subdirectory. -/
def worldNoDir : World :=
  { pathExists := fun _ => false
    cmdOutcome := fun _ => .error "no such directory"
    isWindows := false
    fileContains := fun _ _ => false
    validJson := fun _ => false
    jsonHasField := fun _ _ => false
    importOk := fun _ => false }

/-- Witness for C8 at a concrete world. -/
theorem main_requires_repo_directory_witness :
    (setupMain worldNoDir).1 = false ∧ (validateMain worldNoDir).1 = false := by
  have h := main_requires_repo_directory worldNoDir rfl
  exact ⟨by rw [h.1], by rw [h.2.1]⟩

/-- C9: once past the directory check, validation main returns True exactly
when the success rate — passing checks over the total of 11, times 100 — is at
least 80, and that threshold is met exactly when at least 9 of the 11 checks
pass: the migration is reported successful even with up to two failing
checks. -/
theorem validate_main_success_threshold (w : World)
    (hdir : w.pathExists "discovery-engine-2cat" = true) :
    ((validateMain w).1 = true ↔ 80 ≤ success_rate w)
    ∧ (80 ≤ success_rate w ↔ 9 ≤ passedChecks w) := by
  constructor
  · simp [validateMain, hdir]
  · have hlen : (((checkResults w).length : ℚ)) = 11 := by
      simp [checkResults]
    unfold success_rate
    rw [hlen, div_mul_eq_mul_div, le_div_iff₀ (by norm_num : (0 : ℚ) < 11)]
    constructor
    · intro hle
      have h2 : (880 : ℚ) ≤ (passedChecks w : ℚ) * 100 := by linarith
      have h3 : (880 : ℕ) ≤ passedChecks w * 100 := by exact_mod_cast h2
      omega
    · intro hge
      have h3 : (880 : ℕ) ≤ passedChecks w * 100 := by omega
      have h2 : (880 : ℚ) ≤ (passedChecks w : ℚ) * 100 := by exact_mod_cast h3
      linarith

/-- World in which exactly two of the eleven checks fail (import statements
and basic tests) and every file-system observation succeeds. -/
def worldTwoFail : World :=
  { pathExists := fun _ => true
    cmdOutcome := fun _ => .ok ""
    isWindows := false
    fileContains := fun _ _ => false
    validJson := fun _ => true
    jsonHasField := fun _ _ => true
    importOk := fun _ => false }

/-- Witness for C9: with two failing checks (nine of eleven pass) validation
main still reports success. -/
theorem validate_main_success_threshold_witness :
    (validateMain worldTwoFail).1 = true :=
  ((validate_main_success_threshold worldTwoFail rfl).1).mpr
    (((validate_main_success_threshold worldTwoFail rfl).2).mpr (by decide))

/-- C10: run_command returns the stripped standard output on success and None
on any CalledProcessError — the exception never propagates — and
setup_submodule returns True regardless of whether the underlying git
submodule command succeeded (a failure is only printed). -/
theorem run_command_swallows_failure (w : World) (cmd : String) :
    (∀ err, w.cmdOutcome cmd = .error err → (run_command w cmd).1 = none)
    ∧ (∀ out, w.cmdOutcome cmd = .ok out → (run_command w cmd).1 = some out.trim)
    ∧ (setup_submodule w).1 = true := by
  refine ⟨fun err h => by simp [run_command, h],
          fun out h => by simp [run_command, h], ?_⟩
  cases hc : w.cmdOutcome
      ("git submodule add " ++ proof_engine_url ++ " external/proof-engine-core") with
  | ok out => simp [setup_submodule, run_command, hc]
  | error e => simp [setup_submodule, run_command, hc]

/-- World in which every shell command fails with a CalledProcessError. -/
def worldCmdFail : World :=
  { pathExists := fun _ => true
    cmdOutcome := fun _ => .error "fatal: repository not found"
    isWindows := false
    fileContains := fun _ _ => true
    validJson := fun _ => true
    jsonHasField := fun _ _ => true
    importOk := fun _ => true }

/-- Witness for C10: with the git command failing, run_command yields None and
setup_submodule still returns True. -/
theorem run_command_swallows_failure_witness :
    (run_command worldCmdFail "git init").1 = none
    ∧ (setup_submodule worldCmdFail).1 = true :=
  ⟨(run_command_swallows_failure worldCmdFail "git init").1
      "fatal: repository not found" rfl,
   (run_command_swallows_failure worldCmdFail "git init").2.2⟩

end DiscoveryEngine
